import Mathlib

/-!
Verification of the leave-management backend (Go + PostgreSQL).

The development shallowly embeds the relational state and the request
handlers of the repository:

* `calculate_working_days`, `check_leave_overlap` — the SQL utility
  functions of `Database/db.sql`;
* `applyLeave` — `ApplyLeave` in `internal/handlers/leave_request.go`;
* `approveLeaveRequest`, `rejectLeaveRequest`, `cancelLeaveRequest` —
  the corresponding handlers in the same file;
* `createEmployee` — `CreateEmployee` in the employee handler.

Dates are modelled as natural numbers (days since a fixed Monday, so that
day `d` has ISO day-of-week `d % 7 + 1`; concrete inputs below use
2024-01-01, a Monday, as day 0).  Database tables are lists of records;
a SQL `UPDATE ... WHERE` is a `List.map` guarded by the `WHERE` clause, a
`QueryRow ... Scan` is `List.find?`, and a transaction that the Go code
rolls back on error is the `Except` error branch, which returns no state.
Handler early returns (HTTP 4xx/5xx) are `Except.error` values.
-/

/-- Request status: the `leave_status` enum of the schema. -/
inductive LeaveStatus where
  | pending
  | approved
  | rejected
  | cancelled
deriving DecidableEq, Repr

/-- A row of `leave_requests` (columns the handlers touch). -/
structure LeaveRequest where
  id : Nat
  employee_id : Nat
  leave_type_id : Nat
  start_date : Nat
  end_date : Nat
  total_days : Int
  reason : String
  status : LeaveStatus
  approved_by : Option Nat
  approved_at : Option Nat
  rejection_reason : Option String
deriving DecidableEq, Repr

/-- A row of `employee_leave_balances`.  `available_days` is a generated
column, so it is a function here, never stored. -/
structure Balance where
  employee_id : Nat
  leave_type_id : Nat
  year : Nat
  allocated_days : Int
  used_days : Int
  carried_forward_days : Int
deriving DecidableEq, Repr

/-- `available_days INTEGER GENERATED ALWAYS AS
(allocated_days + carried_forward_days - used_days) STORED`. -/
def Balance.available_days (b : Balance) : Int :=
  b.allocated_days + b.carried_forward_days - b.used_days

/-- A row of `employees` (columns the handlers touch). -/
structure Employee where
  id : Nat
  emp_code : String
  email : String
  name : String
  department_id : Nat
  joining_date : Nat
deriving DecidableEq, Repr

/-- A row of `leave_types` (columns the handlers touch). -/
structure LeaveType where
  id : Nat
  max_days_per_year : Int
  is_active : Bool
deriving DecidableEq, Repr

/-- The relational state of the system: one list per table. -/
structure DB where
  departments : List Nat
  leave_types : List LeaveType
  employees : List Employee
  balances : List Balance
  requests : List LeaveRequest
deriving DecidableEq, Repr

/-- ISO day of week of day `d`: Monday = 1 … Sunday = 7 (day 0 is a
Monday by the epoch convention). -/
def isodow (d : Nat) : Nat := d % 7 + 1

/-- The inclusive day range `[s, e]`, as `generate_series(s, e, '1 day')`
produces it (empty when `s > e`). -/
def dateRange (s e : Nat) : List Nat := (List.range (e + 1 - s)).map (s + ·)

/-- SQL `calculate_working_days(start_date, end_date)`: the number of
days `d` in the inclusive range with `EXTRACT(ISODOW FROM d) < 6`,
i.e. the Monday–Friday count. -/
def calculate_working_days (s e : Nat) : Nat :=
  (dateRange s e).countP (fun d => isodow d < 6)

/-- SQL `check_leave_overlap(p_employee_id, p_start_date, p_end_date,
p_exclude_request_id)`: `EXISTS` a request of the employee with status
in `('pending','approved')`, distinct from the excluded id when one is
given, whose range intersects `[s, e]` via
`NOT (end_date < p_start_date OR start_date > p_end_date)`. -/
def check_leave_overlap (db : DB) (emp s e : Nat) (excl : Option Nat) : Bool :=
  db.requests.any (fun lr =>
    lr.employee_id == emp &&
    (lr.status == .pending || lr.status == .approved) &&
    (match excl with
     | none => true
     | some x => lr.id != x) &&
    !(decide (lr.end_date < s) || decide (lr.start_date > e)))

/-- The early-return outcomes of `ApplyLeave`. -/
inductive ApplyError where
  | invalidInput
  | invalidDateRange
  | invalidEmployee
  | beforeJoining
  | noBalanceRecord
  | insufficientBalance
  | overlappingRequest
deriving DecidableEq, Repr

/-- `ApplyLeave` (POST /leave-requests).  Mirrors the handler's order of
checks: JSON binding (`reason` required), date order, the employee's
joining date, the balance row for the current year, `totalDays`
computed as `int(end.Sub(start).Hours()/24) + 1` — calendar days —
compared against `available_days`, the overlap check, then the insert of
a `pending` row.  `year` is `time.Now().Year()`, `newId` the id the
insert returns.  On success it returns the new state, the request id and
the `total_days` the handler echoes back. -/
def applyLeave (db : DB) (emp lt s e : Nat) (reason : String)
    (year newId : Nat) : Except ApplyError (DB × Nat × Int) :=
  if reason = "" then .error .invalidInput
  else if e < s then .error .invalidDateRange
  else
    match db.employees.find? (fun w => w.id == emp) with
    | none => .error .invalidEmployee
    | some w =>
      if s < w.joining_date then .error .beforeJoining
      else
        match db.balances.find? (fun b =>
            b.employee_id == emp && b.leave_type_id == lt && b.year == year) with
        | none => .error .noBalanceRecord
        | some b =>
          if b.available_days < (e : Int) - (s : Int) + 1 then
            .error .insufficientBalance
          else if check_leave_overlap db emp s e none then
            .error .overlappingRequest
          else
            .ok ({ db with requests := db.requests ++
                    [{ id := newId, employee_id := emp, leave_type_id := lt,
                       start_date := s, end_date := e,
                       total_days := (e : Int) - (s : Int) + 1,
                       reason := reason, status := .pending,
                       approved_by := none, approved_at := none,
                       rejection_reason := none }] },
                 newId, (e : Int) - (s : Int) + 1)

/-- The early-return outcomes of `ApproveLeaveRequest`. -/
inductive ApproveError where
  | requestNotFound
deriving DecidableEq, Repr

/-- `ApproveLeaveRequest` (PUT /leave-requests/:id/approve).  The handler
fetches `employee_id, leave_type_id, total_days` of the request (404 if
absent) and then, in one transaction, unconditionally sets
`status='approved', approved_by, approved_at=NOW()` on the request row
and adds `total_days` to `used_days` on the balance rows matching
`(employee_id, leave_type_id, year)` — zero matching balance rows is not
an error.  No status check is performed before the update. -/
def approveLeaveRequest (db : DB) (id approver year now : Nat) :
    Except ApproveError DB :=
  match db.requests.find? (fun q => q.id == id) with
  | none => .error .requestNotFound
  | some r =>
    let reqs := db.requests.map (fun q =>
      if q.id == id then
        { q with status := .approved, approved_by := some approver,
                 approved_at := some now }
      else q)
    let bals := db.balances.map (fun b =>
      if b.employee_id == r.employee_id && b.leave_type_id == r.leave_type_id
          && b.year == year then
        { b with used_days := b.used_days + r.total_days }
      else b)
    .ok { db with requests := reqs, balances := bals }

/-- The early-return outcomes of `RejectLeaveRequest`. -/
inductive RejectError where
  | missingReason
deriving DecidableEq, Repr

/-- `RejectLeaveRequest` (PUT /leave-requests/:id/reject): requires a
non-empty `rejection_reason`, then sets `status='rejected',
rejection_reason` on the rows with the given id.  It touches no other
table. -/
def rejectLeaveRequest (db : DB) (id : Nat) (reason : String) :
    Except RejectError DB :=
  if reason = "" then .error .missingReason
  else
    .ok { db with requests := db.requests.map (fun q =>
      if q.id == id then
        { q with status := .rejected, rejection_reason := some reason }
      else q) }

/-- `CancelLeaveRequest` (PUT /leave-requests/:id/cancel): sets
`status='cancelled'` on the rows with the given id, with no check of the
current status and no other effect. -/
def cancelLeaveRequest (db : DB) (id : Nat) : DB :=
  { db with requests := db.requests.map (fun q =>
      if q.id == id then { q with status := .cancelled } else q) }

/-- The early-return outcomes of `CreateEmployee`. -/
inductive CreateEmployeeError where
  | missingFields
  | futureJoiningDate
  | departmentNotFound
deriving DecidableEq, Repr

/-- One row of the balance-initialization insert of `CreateEmployee`:
`(employee_id, leave_type_id, year, max_days_per_year, 0, 0)`. -/
def initBalanceRow (newId year : Nat) (lt : LeaveType) : Balance :=
  { employee_id := newId, leave_type_id := lt.id, year := year,
    allocated_days := lt.max_days_per_year, used_days := 0,
    carried_forward_days := 0 }

/-- Does `bals` already hold a row with key `(newId, ltId, year)`?  This
is the `ON CONFLICT (employee_id, leave_type_id, year)` test. -/
def hasBalanceKey (bals : List Balance) (newId ltId year : Nat) : Bool :=
  bals.any (fun b =>
    b.employee_id == newId && b.leave_type_id == ltId && b.year == year)

/-- The multi-row `INSERT ... SELECT ... ON CONFLICT DO NOTHING` of
`CreateEmployee`, row by row: each candidate row is skipped when a row
with the same `(employee_id, leave_type_id, year)` key is already
present, including rows inserted earlier by the same statement. -/
def insertBalanceRows (newId year : Nat) (lts : List LeaveType)
    (bals : List Balance) : List Balance :=
  lts.foldl (fun acc lt =>
    if hasBalanceKey acc newId lt.id year then acc
    else acc ++ [initBalanceRow newId year lt]) bals

/-- `CreateEmployee` (POST /employees).  Mirrors the handler: trimmed
name and email must be non-empty; the joining date must not lie in the
future; the department must exist; then, in one transaction, the
employee row is inserted and one balance row per active leave type is
inserted for the current year with `allocated_days = max_days_per_year`,
`used_days = 0`, `carried_forward_days = 0`, `ON CONFLICT DO NOTHING` on
`(employee_id, leave_type_id, year)`. -/
def createEmployee (db : DB) (nm email : String) (deptId joinDate : Nat)
    (today year newId : Nat) (empCode : String) :
    Except CreateEmployeeError DB :=
  if nm = "" ∨ email = "" then .error .missingFields
  else if today < joinDate then .error .futureJoiningDate
  else if ¬ db.departments.contains deptId then .error .departmentNotFound
  else
    .ok { db with
          employees := db.employees ++
            [{ id := newId, emp_code := empCode, email := email, name := nm,
               department_id := deptId, joining_date := joinDate }],
          balances := insertBalanceRows newId year
            (db.leave_types.filter (fun lt => lt.is_active)) db.balances }

/-! ### Concrete states used by the scenario theorems -/

/-- A state with one department, one active leave type (21 days/year),
one employee who joined on day 0 (2024-01-01, a Monday), a full balance
for 2024 and no requests. -/
def db0 : DB :=
  { departments := [1],
    leave_types := [{ id := 1, max_days_per_year := 21, is_active := true }],
    employees := [{ id := 1, emp_code := "EMP-1", email := "alice@example.com",
                    name := "Alice", department_id := 1, joining_date := 0 }],
    balances := [{ employee_id := 1, leave_type_id := 1, year := 2024,
                   allocated_days := 21, used_days := 0,
                   carried_forward_days := 0 }],
    requests := [] }

/-- `db0` after a 2-day request (days 10–11) was approved: the request is
`approved` and `used_days = 2` already accounts for it. -/
def dbApproved : DB :=
  { departments := [1],
    leave_types := [{ id := 1, max_days_per_year := 21, is_active := true }],
    employees := [{ id := 1, emp_code := "EMP-1", email := "alice@example.com",
                    name := "Alice", department_id := 1, joining_date := 0 }],
    balances := [{ employee_id := 1, leave_type_id := 1, year := 2024,
                   allocated_days := 21, used_days := 2,
                   carried_forward_days := 0 }],
    requests := [{ id := 1, employee_id := 1, leave_type_id := 1,
                   start_date := 10, end_date := 11, total_days := 2,
                   reason := "trip", status := .approved,
                   approved_by := some 9, approved_at := some 50,
                   rejection_reason := none }] }

/-- C1: the spec's own scenario, 2024-02-01 (Thursday, day 31) through
2024-02-05 (Monday, day 35).  The working-day count of the range is 3,
but `ApplyLeave` persists and returns `total_days = 5`: the handler
computes `int(end.Sub(start).Hours()/24) + 1` — the calendar-day count —
and never calls the schema's `calculate_working_days`. -/
theorem applyLeave_stores_calendar_days_not_working_days :
  calculate_working_days 31 35 = 3 ∧
  (applyLeave db0 1 1 31 35 "vacation" 2024 100).toOption.map
      (fun p => (p.1.requests.map (fun r => r.total_days), p.2.2)) =
    some ([5], 5) := by decide

/-- C6: a weekend-only range, Saturday 2024-02-03 (day 33) to Sunday
2024-02-04 (day 34), has working-day count 0, yet `ApplyLeave` admits it
and creates a request with `total_days = 2`: no zero-duration check
exists in the handler. -/
theorem applyLeave_admits_weekend_only_range :
  calculate_working_days 33 34 = 0 ∧
  (applyLeave db0 1 1 33 34 "errand" 2024 100).toOption.map
      (fun p => (p.1.requests.map (fun r => r.total_days), p.2.2)) =
    some ([2], 2) := by decide

/-- C7: `CancelLeaveRequest` performs no status check: a request whose
status is `approved` is set to `cancelled` all the same, violating the
pending-only transition the spec states. -/
theorem cancel_sets_cancelled_from_approved :
  dbApproved.requests.map (fun r => r.status) = [.approved] ∧
  (cancelLeaveRequest dbApproved 1).requests.map (fun r => r.status) =
    [.cancelled] := by decide

/-- C2 counterexample: approving the already-`approved` request of
`dbApproved` a second time is not rejected — the call succeeds and
`used_days` rises from 2 to 4, double-counting the request.  This
refutes the claim that a non-pending request fails with `NotPending`
with the ledger unchanged. -/
theorem approve_non_pending_accepted_counterexample :
  dbApproved.requests.map (fun r => r.status) = [.approved] ∧
  dbApproved.balances.map (fun b => b.used_days) = [2] ∧
  (approveLeaveRequest dbApproved 1 9 2024 60).toOption.map
      (fun d => (d.requests.map (fun r => r.status),
                 d.balances.map (fun b => b.used_days))) =
    some ([.approved], [4]) := by decide

/-! ### General theorems -/

/-- The row condition of `check_leave_overlap`, as a proposition. -/
lemma overlap_row_iff (lr : LeaveRequest) (emp s e : Nat) (excl : Option Nat) :
    (lr.employee_id == emp &&
     (lr.status == LeaveStatus.pending || lr.status == LeaveStatus.approved) &&
     (match excl with
      | none => true
      | some x => lr.id != x) &&
     !(decide (lr.end_date < s) || decide (lr.start_date > e))) = true ↔
    (lr.employee_id = emp ∧
     (lr.status = .pending ∨ lr.status = .approved) ∧
     (∀ x, excl = some x → lr.id ≠ x) ∧
     ¬(lr.end_date < s ∨ lr.start_date > e)) := by
  cases excl <;> simp [and_assoc, not_or]

/-- C4: `check_leave_overlap` returns true iff some request of the
employee with status `pending` or `approved`, other than the excluded
id, intersects the range via `NOT (end < start' OR start > end')`
(so `cancelled`/`rejected` rows never count); and once the earlier
admission checks pass, `ApplyLeave` fails with the overlap error exactly
when the check returns true. -/
theorem overlap_check_characterization :
  (∀ (db : DB) (emp s e : Nat) (excl : Option Nat),
    check_leave_overlap db emp s e excl = true ↔
      ∃ lr, lr ∈ db.requests ∧
        (lr.employee_id = emp ∧
         (lr.status = .pending ∨ lr.status = .approved) ∧
         (∀ x, excl = some x → lr.id ≠ x) ∧
         ¬(lr.end_date < s ∨ lr.start_date > e))) ∧
  (∀ (db : DB) (emp lt s e : Nat) (reason : String) (year newId : Nat)
     (w : Employee) (b : Balance),
    reason ≠ "" → s ≤ e →
    db.employees.find? (fun x => x.id == emp) = some w →
    w.joining_date ≤ s →
    db.balances.find? (fun x =>
      x.employee_id == emp && x.leave_type_id == lt && x.year == year) = some b →
    (e : Int) - (s : Int) + 1 ≤ b.available_days →
    (applyLeave db emp lt s e reason year newId = .error .overlappingRequest ↔
      check_leave_overlap db emp s e none = true)) := by
  constructor
  · intro db emp s e excl
    unfold check_leave_overlap
    rw [List.any_eq_true]
    exact exists_congr fun lr =>
      and_congr_right fun _ => overlap_row_iff lr emp s e excl
  · intro db emp lt s e reason year newId w b hreason hse hw hj hb havail
    unfold applyLeave
    rw [if_neg hreason, if_neg (not_lt.mpr hse), hw]
    dsimp only
    rw [if_neg (not_lt.mpr hj), hb]
    dsimp only
    rw [if_neg (not_lt.mpr havail)]
    by_cases hov : check_leave_overlap db emp s e none = true
    · rw [if_pos hov]
      exact ⟨fun _ => hov, fun _ => rfl⟩
    · rw [if_neg hov]
      simp [hov]

/-- C3: with the earlier admission checks passing, a computed
`total_days` exceeding `available_days` makes `ApplyLeave` fail with the
insufficient-balance error, and no request row is created (no success
outcome exists). -/
theorem insufficient_balance_rejected :
  ∀ (db : DB) (emp lt s e : Nat) (reason : String) (year newId : Nat)
    (w : Employee) (b : Balance),
    reason ≠ "" → s ≤ e →
    db.employees.find? (fun x => x.id == emp) = some w →
    w.joining_date ≤ s →
    db.balances.find? (fun x =>
      x.employee_id == emp && x.leave_type_id == lt && x.year == year) = some b →
    b.available_days < (e : Int) - (s : Int) + 1 →
    applyLeave db emp lt s e reason year newId = .error .insufficientBalance ∧
    ∀ out, applyLeave db emp lt s e reason year newId ≠ .ok out := by
  intro db emp lt s e reason year newId w b hreason hse hw hj hb hlt
  have h1 : applyLeave db emp lt s e reason year newId =
      .error .insufficientBalance := by
    unfold applyLeave
    rw [if_neg hreason, if_neg (not_lt.mpr hse), hw]
    dsimp only
    rw [if_neg (not_lt.mpr hj), hb]
    dsimp only
    rw [if_pos hlt]
  exact ⟨h1, fun out h => by rw [h1] at h; cases h⟩

/-- The request-table update of approval marks exactly the rows with the
given id as approved, with approver and time recorded. -/
lemma approved_rows_marked (db : DB) (id approver now : Nat) :
    ∀ q ∈ db.requests.map (fun q =>
      if q.id == id then
        { q with status := LeaveStatus.approved, approved_by := some approver,
                 approved_at := some now }
      else q), q.id = id →
      q.status = .approved ∧ q.approved_by = some approver ∧
      q.approved_at = some now := by
  intro q hq hqid
  rcases List.mem_map.mp hq with ⟨q₀, hq₀, rfl⟩
  by_cases hid : q₀.id == id
  · simp [hid]
  · rw [if_neg hid] at hqid ⊢
    exact absurd (beq_iff_eq.mpr hqid) hid

/-- Unfolding equation of `approveLeaveRequest` when the request is
found: the call succeeds and performs both table updates, with no status
inspection anywhere. -/
lemma approve_found_eq :
  ∀ (db : DB) (id approver year now : Nat) (r : LeaveRequest),
    db.requests.find? (fun q => q.id == id) = some r →
    approveLeaveRequest db id approver year now =
      .ok { db with
            requests := db.requests.map (fun q =>
              if q.id == id then
                { q with status := .approved, approved_by := some approver,
                         approved_at := some now }
              else q),
            balances := db.balances.map (fun b =>
              if b.employee_id == r.employee_id &&
                  b.leave_type_id == r.leave_type_id && b.year == year then
                { b with used_days := b.used_days + r.total_days }
              else b) } := by
  intro db id approver year now r h
  unfold approveLeaveRequest
  rw [h]

/-- C2 amended: approval performs no status check.  Whenever the request
exists — whatever its status — `ApproveLeaveRequest` succeeds, marks the
row approved with approver and time, and adds `total_days` to
`used_days` on every matching balance row again; only a missing id
fails.  (In particular a second approval of the same request is silently
accepted and double-counts the request.) -/
theorem approve_ignores_status :
  ∀ (db : DB) (id approver year now : Nat) (r : LeaveRequest),
    db.requests.find? (fun q => q.id == id) = some r →
    approveLeaveRequest db id approver year now =
      .ok { db with
            requests := db.requests.map (fun q =>
              if q.id == id then
                { q with status := .approved, approved_by := some approver,
                         approved_at := some now }
              else q),
            balances := db.balances.map (fun b =>
              if b.employee_id == r.employee_id &&
                  b.leave_type_id == r.leave_type_id && b.year == year then
                { b with used_days := b.used_days + r.total_days }
              else b) } :=
  approve_found_eq

/-- Witness for `approve_ignores_status`: the second approval of the
already-approved request of `dbApproved`. -/
theorem approve_ignores_status_witness :
  approveLeaveRequest dbApproved 1 9 2024 60 =
    .ok { dbApproved with
          requests := dbApproved.requests.map (fun q =>
            if q.id == 1 then
              { q with status := .approved, approved_by := some 9,
                       approved_at := some 60 }
            else q),
          balances := dbApproved.balances.map (fun b =>
            if b.employee_id == 1 && b.leave_type_id == 1 && b.year == 2024 then
              { b with used_days := b.used_days + 2 }
            else b) } :=
  approve_ignores_status dbApproved 1 9 2024 60
    { id := 1, employee_id := 1, leave_type_id := 1, start_date := 10,
      end_date := 11, total_days := 2, reason := "trip", status := .approved,
      approved_by := some 9, approved_at := some 50,
      rejection_reason := none }
    (by decide)

/-- C5: approving a pending request is all-or-nothing.  When the request
exists with status `pending` and a balance row for its employee, leave
type and the current year exists, the one call produces a state in which
the request row is approved (approver and time set) AND the matching
balance row carries `used_days + total_days` — both mutations in the
same resulting state, never one without the other; every failing path
returns an error carrying no state at all, so nothing is mutated then. -/
theorem approve_pending_both_mutations :
  ∀ (db : DB) (id approver year now : Nat) (r : LeaveRequest) (b : Balance),
    db.requests.find? (fun q => q.id == id) = some r →
    r.status = .pending →
    b ∈ db.balances →
    b.employee_id = r.employee_id →
    b.leave_type_id = r.leave_type_id →
    b.year = year →
    ∃ db', approveLeaveRequest db id approver year now = .ok db' ∧
      (∀ q ∈ db'.requests, q.id = id →
        q.status = .approved ∧ q.approved_by = some approver ∧
        q.approved_at = some now) ∧
      { b with used_days := b.used_days + r.total_days } ∈ db'.balances ∧
      (∀ x ∈ db.balances,
        ¬(x.employee_id = r.employee_id ∧ x.leave_type_id = r.leave_type_id ∧
          x.year = year) →
        x ∈ db'.balances) := by
  intro db id approver year now r b hfind hstat hmem hbe hbl hby
  refine ⟨_, approve_found_eq db id approver year now r hfind,
    approved_rows_marked db id approver now, ?_, ?_⟩
  · have hbeq : ({ b with used_days := b.used_days + r.total_days } : Balance) =
        (fun x : Balance =>
          if x.employee_id == r.employee_id && x.leave_type_id == r.leave_type_id
              && x.year == year then
            { x with used_days := x.used_days + r.total_days }
          else x) b := by
      simp [hbe, hbl, hby]
    rw [hbeq]
    exact List.mem_map_of_mem _ hmem
  · intro x hx hnot
    have hcond : ¬(x.employee_id == r.employee_id &&
        x.leave_type_id == r.leave_type_id && x.year == year) = true := by
      simp only [Bool.and_eq_true, beq_iff_eq]
      rintro ⟨⟨h1, h2⟩, h3⟩
      exact hnot ⟨h1, h2, h3⟩
    have hxeq : (fun y : Balance =>
        if y.employee_id == r.employee_id && y.leave_type_id == r.leave_type_id
            && y.year == year then
          { y with used_days := y.used_days + r.total_days }
        else y) x = x := by
      simp only []
      rw [if_neg hcond]
    rw [show x = (fun y : Balance =>
        if y.employee_id == r.employee_id && y.leave_type_id == r.leave_type_id
            && y.year == year then
          { y with used_days := y.used_days + r.total_days }
        else y) x from hxeq.symm]
    exact List.mem_map_of_mem _ hx

/-- `db0` with one pending 2-day request (days 10–11), not yet counted
in the balance. -/
def dbPending : DB :=
  { departments := [1],
    leave_types := [{ id := 1, max_days_per_year := 21, is_active := true }],
    employees := [{ id := 1, emp_code := "EMP-1", email := "alice@example.com",
                    name := "Alice", department_id := 1, joining_date := 0 }],
    balances := [{ employee_id := 1, leave_type_id := 1, year := 2024,
                   allocated_days := 21, used_days := 0,
                   carried_forward_days := 0 }],
    requests := [{ id := 1, employee_id := 1, leave_type_id := 1,
                   start_date := 10, end_date := 11, total_days := 2,
                   reason := "trip", status := .pending,
                   approved_by := none, approved_at := none,
                   rejection_reason := none }] }

/-- Witness for `approve_pending_both_mutations`: approving the pending
request of `dbPending`. -/
theorem approve_pending_both_mutations_witness :
  ∃ db', approveLeaveRequest dbPending 1 9 2024 60 = .ok db' ∧
    (∀ q ∈ db'.requests, q.id = 1 →
      q.status = .approved ∧ q.approved_by = some 9 ∧
      q.approved_at = some 60) ∧
    ({ employee_id := 1, leave_type_id := 1, year := 2024,
       allocated_days := 21, used_days := 0 + 2,
       carried_forward_days := 0 } : Balance) ∈ db'.balances ∧
    (∀ x ∈ dbPending.balances,
      ¬(x.employee_id = 1 ∧ x.leave_type_id = 1 ∧ x.year = 2024) →
      x ∈ db'.balances) :=
  approve_pending_both_mutations dbPending 1 9 2024 60
    { id := 1, employee_id := 1, leave_type_id := 1, start_date := 10,
      end_date := 11, total_days := 2, reason := "trip", status := .pending,
      approved_by := none, approved_at := none, rejection_reason := none }
    { employee_id := 1, leave_type_id := 1, year := 2024,
      allocated_days := 21, used_days := 0, carried_forward_days := 0 }
    (by decide) rfl (by decide) rfl rfl rfl

/-- C10: if no balance row matches `(employee, leave_type, year)` at
approval time, `ApproveLeaveRequest` on an existing request still
succeeds — the balance `UPDATE` matching zero rows is not an error — the
request becomes `approved`, and the balance table is completely
unchanged: `used_days` is never incremented for that approval. -/
theorem approve_without_balance_row_commits :
  ∀ (db : DB) (id approver year now : Nat) (r : LeaveRequest),
    db.requests.find? (fun q => q.id == id) = some r →
    (∀ b ∈ db.balances,
      ¬(b.employee_id = r.employee_id ∧ b.leave_type_id = r.leave_type_id ∧
        b.year = year)) →
    ∃ db', approveLeaveRequest db id approver year now = .ok db' ∧
      db'.balances = db.balances ∧
      (∀ q ∈ db'.requests, q.id = id →
        q.status = .approved ∧ q.approved_by = some approver ∧
        q.approved_at = some now) := by
  intro db id approver year now r hfind hnone
  refine ⟨_, approve_found_eq db id approver year now r hfind, ?_,
    approved_rows_marked db id approver now⟩
  have h1 : ∀ x ∈ db.balances,
      (fun y : Balance =>
        if y.employee_id == r.employee_id && y.leave_type_id == r.leave_type_id
            && y.year == year then
          { y with used_days := y.used_days + r.total_days }
        else y) x = x := by
    intro x hx
    have hcond : ¬(x.employee_id == r.employee_id &&
        x.leave_type_id == r.leave_type_id && x.year == year) = true := by
      simp only [Bool.and_eq_true, beq_iff_eq]
      rintro ⟨⟨h1, h2⟩, h3⟩
      exact hnone x hx ⟨h1, h2, h3⟩
    simp only []
    rw [if_neg hcond]
  simpa using List.map_congr_left h1

/-- A state whose only balance row is for 2023: approval in year 2024
finds no matching balance row. -/
def dbNoBal : DB :=
  { departments := [1],
    leave_types := [{ id := 1, max_days_per_year := 21, is_active := true }],
    employees := [{ id := 1, emp_code := "EMP-1", email := "alice@example.com",
                    name := "Alice", department_id := 1, joining_date := 0 }],
    balances := [{ employee_id := 1, leave_type_id := 1, year := 2023,
                   allocated_days := 21, used_days := 0,
                   carried_forward_days := 0 }],
    requests := [{ id := 1, employee_id := 1, leave_type_id := 1,
                   start_date := 10, end_date := 11, total_days := 2,
                   reason := "trip", status := .pending,
                   approved_by := none, approved_at := none,
                   rejection_reason := none }] }

/-- Witness for `approve_without_balance_row_commits` on `dbNoBal`. -/
theorem approve_without_balance_row_commits_witness :
  ∃ db', approveLeaveRequest dbNoBal 1 9 2024 60 = .ok db' ∧
    db'.balances = dbNoBal.balances ∧
    (∀ q ∈ db'.requests, q.id = 1 →
      q.status = .approved ∧ q.approved_by = some 9 ∧
      q.approved_at = some 60) :=
  approve_without_balance_row_commits dbNoBal 1 9 2024 60
    { id := 1, employee_id := 1, leave_type_id := 1, start_date := 10,
      end_date := 11, total_days := 2, reason := "trip", status := .pending,
      approved_by := none, approved_at := none, rejection_reason := none }
    (by decide) (by decide)

/-- C8: rejection and cancellation touch only the `leave_requests`
table: the balance ledger (hence every `used_days`), the employees, the
leave types and the departments are exactly as before. -/
theorem reject_cancel_preserve_ledger :
  ∀ (db : DB) (id : Nat) (reason : String) (db' : DB),
    (rejectLeaveRequest db id reason = .ok db' →
      db'.balances = db.balances ∧ db'.employees = db.employees ∧
      db'.leave_types = db.leave_types ∧ db'.departments = db.departments) ∧
    ((cancelLeaveRequest db id).balances = db.balances ∧
     (cancelLeaveRequest db id).employees = db.employees ∧
     (cancelLeaveRequest db id).leave_types = db.leave_types ∧
     (cancelLeaveRequest db id).departments = db.departments) := by
  intro db id reason db'
  constructor
  · intro h
    unfold rejectLeaveRequest at h
    by_cases hre : reason = ""
    · rw [if_pos hre] at h
      cases h
    · rw [if_neg hre] at h
      cases h
      exact ⟨rfl, rfl, rfl, rfl⟩
  · exact ⟨rfl, rfl, rfl, rfl⟩

/-- `dbApproved` after its request was rejected with reason "no". -/
def dbRejected : DB :=
  { departments := [1],
    leave_types := [{ id := 1, max_days_per_year := 21, is_active := true }],
    employees := [{ id := 1, emp_code := "EMP-1", email := "alice@example.com",
                    name := "Alice", department_id := 1, joining_date := 0 }],
    balances := [{ employee_id := 1, leave_type_id := 1, year := 2024,
                   allocated_days := 21, used_days := 2,
                   carried_forward_days := 0 }],
    requests := [{ id := 1, employee_id := 1, leave_type_id := 1,
                   start_date := 10, end_date := 11, total_days := 2,
                   reason := "trip", status := .rejected,
                   approved_by := some 9, approved_at := some 50,
                   rejection_reason := some "no" }] }

/-- Witness for `reject_cancel_preserve_ledger`: rejecting the request
of `dbApproved` yields `dbRejected`, with the ledger untouched. -/
theorem reject_cancel_preserve_ledger_witness :
  dbRejected.balances = dbApproved.balances ∧
  dbRejected.employees = dbApproved.employees ∧
  dbRejected.leave_types = dbApproved.leave_types ∧
  dbRejected.departments = dbApproved.departments :=
  (reject_cancel_preserve_ledger dbApproved 1 "no" dbRejected).1 (by rfl)

/-- Witness for `insufficient_balance_rejected`: a 31-calendar-day
request against an `available_days` of 21. -/
theorem insufficient_balance_rejected_witness :
  applyLeave db0 1 1 0 30 "long" 2024 100 = .error .insufficientBalance ∧
  ∀ out, applyLeave db0 1 1 0 30 "long" 2024 100 ≠ .ok out :=
  insufficient_balance_rejected db0 1 1 0 30 "long" 2024 100
    { id := 1, emp_code := "EMP-1", email := "alice@example.com",
      name := "Alice", department_id := 1, joining_date := 0 }
    { employee_id := 1, leave_type_id := 1, year := 2024,
      allocated_days := 21, used_days := 0, carried_forward_days := 0 }
    (by decide) (by decide) (by decide) (by decide) (by decide) (by decide)

/-- Witness for `overlap_check_characterization`: admitting days 11–12
for the employee of `dbApproved`, whose approved request covers days
10–11. -/
theorem overlap_check_characterization_witness :
  applyLeave dbApproved 1 1 11 12 "more" 2024 7 = .error .overlappingRequest ↔
  check_leave_overlap dbApproved 1 11 12 none = true :=
  overlap_check_characterization.2 dbApproved 1 1 11 12 "more" 2024 7
    { id := 1, emp_code := "EMP-1", email := "alice@example.com",
      name := "Alice", department_id := 1, joining_date := 0 }
    { employee_id := 1, leave_type_id := 1, year := 2024,
      allocated_days := 21, used_days := 2, carried_forward_days := 0 }
    (by decide) (by decide) (by decide) (by decide) (by decide) (by decide)

/-- `hasBalanceKey` over an appended singleton splits into the old check
or a key comparison with the new row. -/
lemma hasBalanceKey_append_single (bals : List Balance) (row : Balance)
    (newId ltId year : Nat) :
    hasBalanceKey (bals ++ [row]) newId ltId year =
      (hasBalanceKey bals newId ltId year ||
       (row.employee_id == newId && row.leave_type_id == ltId &&
        row.year == year)) := by
  unfold hasBalanceKey
  rw [List.any_append]
  simp

/-- Row-by-row `ON CONFLICT DO NOTHING` insertion, when the inserted
leave-type ids are pairwise distinct (they are primary keys), appends
exactly one freshly-built row per leave type whose key is not already
present, in order. -/
lemma insertBalanceRows_eq_of_nodup (newId year : Nat) :
    ∀ (lts : List LeaveType) (bals : List Balance),
      (lts.map (fun lt => lt.id)).Nodup →
      insertBalanceRows newId year lts bals =
        bals ++ (lts.filter
          (fun lt => ! hasBalanceKey bals newId lt.id year)).map
          (initBalanceRow newId year) := by
  intro lts
  induction lts with
  | nil =>
    intro bals h
    simp [insertBalanceRows]
  | cons lt rest ih =>
    intro bals h
    rw [List.map_cons, List.nodup_cons] at h
    obtain ⟨hnotin, hnd⟩ := h
    unfold insertBalanceRows
    rw [List.foldl_cons]
    by_cases hk : hasBalanceKey bals newId lt.id year = true
    · rw [if_pos hk]
      have hfold : List.foldl (fun acc lt =>
          if hasBalanceKey acc newId lt.id year then acc
          else acc ++ [initBalanceRow newId year lt]) bals rest =
          insertBalanceRows newId year rest bals := rfl
      rw [hfold, ih bals hnd, List.filter_cons]
      simp [hk]
    · rw [if_neg hk]
      have hfold : List.foldl (fun acc lt =>
          if hasBalanceKey acc newId lt.id year then acc
          else acc ++ [initBalanceRow newId year lt])
          (bals ++ [initBalanceRow newId year lt]) rest =
          insertBalanceRows newId year rest
            (bals ++ [initBalanceRow newId year lt]) := rfl
      rw [hfold, ih _ hnd]
      have hfil : rest.filter (fun w =>
          ! hasBalanceKey (bals ++ [initBalanceRow newId year lt])
              newId w.id year) =
          rest.filter (fun w => ! hasBalanceKey bals newId w.id year) := by
        apply List.filter_congr
        intro w hmem
        have hne : lt.id ≠ w.id := by
          intro hEq
          exact hnotin (hEq ▸ List.mem_map_of_mem (fun z => z.id) hmem)
        rw [hasBalanceKey_append_single]
        simp [initBalanceRow, hne]
      rw [hfil, List.filter_cons]
      have hkn : (! hasBalanceKey bals newId lt.id year) = true := by
        simp [hk]
      simp only [hkn, if_pos, List.map_cons, cond_true]
      rw [List.append_assoc]
      rfl

/-- C9: `CreateEmployee` rejects a joining date in the future and a
nonexistent department; on success (in one transaction) it appends the
employee row and appends exactly one balance row per currently-active
leave type for the given year, with `allocated_days` equal to that leave
type's `max_days_per_year`, `used_days = 0` and
`carried_forward_days = 0`, skipping keys `(employee, leave_type, year)`
already present (the `ON CONFLICT DO NOTHING` idempotent insert).  The
active leave-type ids are assumed pairwise distinct, as their primary
key guarantees. -/
theorem create_employee_validations_and_balances :
  ∀ (db : DB) (nm email : String) (deptId joinDate today year newId : Nat)
    (empCode : String),
    (nm ≠ "" → email ≠ "" → today < joinDate →
      createEmployee db nm email deptId joinDate today year newId empCode =
        .error .futureJoiningDate) ∧
    (nm ≠ "" → email ≠ "" → joinDate ≤ today →
      ¬ (db.departments.contains deptId = true) →
      createEmployee db nm email deptId joinDate today year newId empCode =
        .error .departmentNotFound) ∧
    (nm ≠ "" → email ≠ "" → joinDate ≤ today →
      db.departments.contains deptId = true →
      ((db.leave_types.filter (fun lt => lt.is_active)).map
          (fun lt => lt.id)).Nodup →
      createEmployee db nm email deptId joinDate today year newId empCode =
        .ok { db with
              employees := db.employees ++
                [{ id := newId, emp_code := empCode, email := email,
                   name := nm, department_id := deptId,
                   joining_date := joinDate }],
              balances := db.balances ++
                ((db.leave_types.filter (fun lt => lt.is_active)).filter
                    (fun lt =>
                      ! hasBalanceKey db.balances newId lt.id year)).map
                  (initBalanceRow newId year) }) := by
  intro db nm email deptId joinDate today year newId empCode
  refine ⟨?_, ?_, ?_⟩
  · intro hnm hem hfut
    unfold createEmployee
    rw [if_neg (not_or.mpr ⟨hnm, hem⟩), if_pos hfut]
  · intro hnm hem hjd hdep
    unfold createEmployee
    rw [if_neg (not_or.mpr ⟨hnm, hem⟩), if_neg (not_lt.mpr hjd), if_pos hdep]
  · intro hnm hem hjd hdep hnd
    unfold createEmployee
    rw [if_neg (not_or.mpr ⟨hnm, hem⟩), if_neg (not_lt.mpr hjd),
      if_neg (not_not_intro hdep),
      insertBalanceRows_eq_of_nodup newId year
        (db.leave_types.filter (fun lt => lt.is_active)) db.balances hnd]

/-- A fresh company state: one department, active leave types 1 and 3
and an inactive type 2, and a pre-existing balance row for the id the
new employee will get and leave type 3 — so that insertion must skip
exactly that key. -/
def dbNewCo : DB :=
  { departments := [5],
    leave_types := [{ id := 1, max_days_per_year := 21, is_active := true },
                    { id := 2, max_days_per_year := 12, is_active := false },
                    { id := 3, max_days_per_year := 10, is_active := true }],
    employees := [],
    balances := [{ employee_id := 77, leave_type_id := 3, year := 2024,
                   allocated_days := 4, used_days := 0,
                   carried_forward_days := 0 }],
    requests := [] }

/-- Witness for `create_employee_validations_and_balances`: creating an
employee in `dbNewCo` appends exactly the balance rows of active leave
types whose key is not already present. -/
theorem create_employee_validations_and_balances_witness :
  createEmployee dbNewCo "Bob" "bob@example.com" 5 3 10 2024 77 "EMP-9" =
    .ok { dbNewCo with
          employees := dbNewCo.employees ++
            [{ id := 77, emp_code := "EMP-9", email := "bob@example.com",
               name := "Bob", department_id := 5, joining_date := 3 }],
          balances := dbNewCo.balances ++
            ((dbNewCo.leave_types.filter (fun lt => lt.is_active)).filter
                (fun lt => ! hasBalanceKey dbNewCo.balances 77 lt.id 2024)).map
              (initBalanceRow 77 2024) } :=
  (create_employee_validations_and_balances dbNewCo "Bob" "bob@example.com"
      5 3 10 2024 77 "EMP-9").2.2
    (by decide) (by decide) (by decide) (by decide) (by decide)
